import Mathlib

/-!
Verification model of the meteorological AVAILABLE-file builder
(`src/flexpart_app/services/meteo.py`).

The Python function `create_available_file(product_dir, start_time, end_time,
prefix)` scans `product_dir` for entries matching `prefix*`, parses a
timestamp out of each name with `datetime.strptime` over six formats,
selects entries for the requested window (with a fallback to all parsed
entries), and writes an `AVAILABLE` manifest.

The embedding below models:
  * CPython `datetime.strptime` for the six digit-only formats used by the
    code, including the exact field regexes of `_strptime.TimeRE`
    (`Y = \d\d\d\d`, `y = \d\d`, `m = 1[0-2]|0[1-9]|[1-9]`,
    `d = 3[0-1]|[1-2]\d|0[1-9]|[1-9]| [1-9]`, `H = 2[0-3]|[0-1]\d|\d`,
    `M = [0-5]\d|\d`), their left-to-right backtracking, the
    "unconverted data remains" check applied to the first successful
    prefix match, calendar validation, and the 1969/2068 pivot that
    `%y` applies before the code's own year adjustment;
  * the directory as a finite list of named entries, each a regular file
    or not, in scan order; `glob(prefix + "*")` as a literal-prefix match
    (the repository always passes a literal prefix; for an empty prefix
    glob's `*` additionally skips dot-files) followed by Python's
    lexicographic `sorted`;
  * timestamps as a record of year/month/day/hour/minute/second compared
    through an order-preserving numeric key (Python `datetime` comparison
    is lexicographic on these components, each bounded well below 100 for
    every constructible `datetime`);
  * the manifest text and the two `MeteoError` messages byte-for-byte
    (ASCII names; `strftime('%Y')` writes the year unpadded as glibc
    does — four digits for years ≥ 1000, fewer for the smaller years
    this parser can also produce, such as year 49 from `00490101` —
    while month, day, hour, minute and second are zero-padded to two
    digits);
  * the write of `AVAILABLE` as an update of a name-to-content map, and
    the error paths as leaving that map untouched.
-/

set_option maxHeartbeats 2000000
set_option maxRecDepth 4000

namespace FlexMeteo

/-- A `datetime` value: year, month, day, hour, minute, second.
`strptime` with the six formats of the code always yields second 0;
window endpoints may carry any second value. -/
structure DT where
  year : Nat
  month : Nat
  day : Nat
  hour : Nat
  minute : Nat
  second : Nat
deriving DecidableEq

/-- Order-preserving key for `datetime` comparison (components of any
Python `datetime` are all below 100 except the year, which is the most
significant digit block here). -/
def dtKey (t : DT) : Nat :=
  ((((t.year * 100 + t.month) * 100 + t.day) * 100 + t.hour) * 100 + t.minute) * 100
    + t.second

/-- Numeric value of an ASCII digit character. -/
def dv (c : Char) : Nat := c.toNat - 48

/-- One regex alternative of a `_strptime` field: consumes characters from
the front and yields the numeric field value. -/
abbrev Alt := List Char → Option (Nat × List Char)

/-- `\d\d\d\d` (the `%Y` field). -/
def altY4 : Alt
  | a :: b :: c :: d :: rest =>
    if a.isDigit ∧ b.isDigit ∧ c.isDigit ∧ d.isDigit then
      some (1000 * dv a + 100 * dv b + 10 * dv c + dv d, rest)
    else none
  | _ => none

/-- `\d\d` (the `%y` field). -/
def altY2 : Alt
  | a :: b :: rest =>
    if a.isDigit ∧ b.isDigit then some (10 * dv a + dv b, rest) else none
  | _ => none

/-- `1[0-2]`. -/
def altM12 : Alt
  | a :: b :: rest =>
    if a = '1' ∧ '0' ≤ b ∧ b ≤ '2' then some (10 + dv b, rest) else none
  | _ => none

/-- `0[1-9]`. -/
def alt0d : Alt
  | a :: b :: rest =>
    if a = '0' ∧ '1' ≤ b ∧ b ≤ '9' then some (dv b, rest) else none
  | _ => none

/-- `[1-9]`. -/
def alt1to9 : Alt
  | b :: rest => if '1' ≤ b ∧ b ≤ '9' then some (dv b, rest) else none
  | _ => none

/-- `3[0-1]`. -/
def altD31 : Alt
  | a :: b :: rest =>
    if a = '3' ∧ (b = '0' ∨ b = '1') then some (30 + dv b, rest) else none
  | _ => none

/-- `[1-2]\d`. -/
def altD29 : Alt
  | a :: b :: rest =>
    if (a = '1' ∨ a = '2') ∧ b.isDigit then some (10 * dv a + dv b, rest) else none
  | _ => none

/-- `  [1-9]` — a space followed by a nonzero digit (last `%d` alternative). -/
def altDsp : Alt
  | a :: b :: rest =>
    if a = ' ' ∧ '1' ≤ b ∧ b ≤ '9' then some (dv b, rest) else none
  | _ => none

/-- `2[0-3]`. -/
def altH23 : Alt
  | a :: b :: rest =>
    if a = '2' ∧ '0' ≤ b ∧ b ≤ '3' then some (20 + dv b, rest) else none
  | _ => none

/-- `[0-1]\d`. -/
def altH19 : Alt
  | a :: b :: rest =>
    if (a = '0' ∨ a = '1') ∧ b.isDigit then some (10 * dv a + dv b, rest) else none
  | _ => none

/-- `\d`. -/
def altAnyD : Alt
  | b :: rest => if b.isDigit then some (dv b, rest) else none
  | _ => none

/-- `[0-5]\d`. -/
def altM59 : Alt
  | a :: b :: rest =>
    if '0' ≤ a ∧ a ≤ '5' ∧ b.isDigit then some (10 * dv a + dv b, rest) else none
  | _ => none

/-- The strptime fields appearing in the six formats of the code. -/
inductive FieldK where
  | Y | y2 | mo | dy | hr | mi
deriving DecidableEq

/-- The ordered regex alternatives of each field, exactly as in
`_strptime.TimeRE`. -/
def altsOf : FieldK → List Alt
  | .Y => [altY4]
  | .y2 => [altY2]
  | .mo => [altM12, alt0d, alt1to9]
  | .dy => [altD31, altD29, alt0d, alt1to9, altDsp]
  | .hr => [altH23, altH19, altAnyD]
  | .mi => [altM59, altAnyD]

/-- Left-to-right backtracking matcher for a sequence of fields: the
current field's remaining alternatives are tried in order; on success the
remaining fields are matched against the rest of the input, and a failure
there backtracks to the next alternative.  This is exactly the search
order of the compiled `re` pattern (an unanchored `match`, so the first
complete match may leave trailing input).  The fuel only bounds the
recursion depth; `100` is far above the deepest possible path (at most
five fields with at most five alternatives each). -/
def goMatch : Nat → List Alt → List FieldK → List Char → Option (List Nat × List Char)
  | 0, _, _, _ => none
  | _ + 1, [], _, _ => none
  | fuel + 1, a :: as, fs, s =>
    match a s with
    | none => goMatch fuel as fs s
    | some (v, rest) =>
      match (match fs with
             | [] => some (([] : List Nat), rest)
             | g :: gs => goMatch fuel (altsOf g) gs rest) with
      | some (vs, r2) => some (v :: vs, r2)
      | none => goMatch fuel as fs s

/-- Match a whole format (list of fields) against the input, returning the
field values and the unconsumed input of the first match found. -/
def matchFields (fields : List FieldK) (s : List Char) : Option (List Nat × List Char) :=
  match fields with
  | [] => some ([], s)
  | f :: fs => goMatch 100 (altsOf f) fs s

/-- `re`-level strptime: the first match must consume the whole input,
otherwise `strptime` raises `unconverted data remains` (with no retry of
other backtracking branches). -/
def strpFields (fields : List FieldK) (s : List Char) : Option (List Nat) :=
  match matchFields fields s with
  | some (vs, []) => some vs
  | _ => none

/-- Gregorian leap-year rule, as used by `datetime`. -/
def isLeap (y : Nat) : Bool :=
  y % 4 == 0 && (y % 100 != 0 || y % 400 == 0)

/-- Days in a month, as validated by the `datetime` constructor. -/
def daysInMonth (y m : Nat) : Nat :=
  if m = 2 then (if isLeap y then 29 else 28)
  else if m = 4 ∨ m = 6 ∨ m = 9 ∨ m = 11 then 30 else 31

/-- The validation performed by `datetime(year, month, day, hour, minute)`:
out-of-range components raise `ValueError`, which the caller treats as a
failed parse. -/
def mkDT (y mo d h mi : Nat) : Option DT :=
  if 1 ≤ y ∧ y ≤ 9999 ∧ 1 ≤ mo ∧ mo ≤ 12 ∧ 1 ≤ d ∧ d ≤ daysInMonth y mo
      ∧ h ≤ 23 ∧ mi ≤ 59 then
    some ⟨y, mo, d, h, mi, 0⟩
  else none

/-- The `%y` pivot applied inside `strptime` itself: 0–68 become 2000–2068
and 69–99 become 1969–1999. -/
def winY2 (y2 : Nat) : Nat := if y2 ≤ 68 then 2000 + y2 else 1900 + y2

/-- `datetime.strptime(s, "%Y%m%d%H")`. -/
def strpYmdH (s : List Char) : Option DT :=
  match strpFields [.Y, .mo, .dy, .hr] s with
  | some [y, mo, d, h] => mkDT y mo d h 0
  | _ => none

/-- `datetime.strptime(s, "%Y%m%d")`. -/
def strpYmd (s : List Char) : Option DT :=
  match strpFields [.Y, .mo, .dy] s with
  | some [y, mo, d] => mkDT y mo d 0 0
  | _ => none

/-- `datetime.strptime(s, "%Y%m%d%H%M")`. -/
def strpYmdHM (s : List Char) : Option DT :=
  match strpFields [.Y, .mo, .dy, .hr, .mi] s with
  | some [y, mo, d, h, mi] => mkDT y mo d h mi
  | _ => none

/-- `datetime.strptime(s, "%y%m%d%H")`. -/
def strpymdH (s : List Char) : Option DT :=
  match strpFields [.y2, .mo, .dy, .hr] s with
  | some [y2, mo, d, h] => mkDT (winY2 y2) mo d h 0
  | _ => none

/-- `datetime.strptime(s, "%y%m%d")`. -/
def strpymd (s : List Char) : Option DT :=
  match strpFields [.y2, .mo, .dy] s with
  | some [y2, mo, d] => mkDT (winY2 y2) mo d 0 0
  | _ => none

/-- `datetime.strptime(s, "%y%m%d%H%M")`. -/
def strpymdHM (s : List Char) : Option DT :=
  match strpFields [.y2, .mo, .dy, .hr, .mi] s with
  | some [y2, mo, d, h, mi] => mkDT (winY2 y2) mo d h mi
  | _ => none

/-- `ts.replace(year := y)` — revalidates the day against the new year and
raises `ValueError` (here `none`) if the date becomes invalid. -/
def replaceYear (t : DT) (y : Nat) : Option DT :=
  if 1 ≤ y ∧ y ≤ 9999 ∧ t.day ≤ daysInMonth y t.month then
    some { t with year := y }
  else none

/-- The two-digit-year adjustment of `_parse` (meteo.py lines 34–37),
applied on top of the year already produced by `%y`:
`if ts.year < 1950: +2000 elif ts.year < 2000: +1900`. -/
def adjust2 (t : DT) : Option DT :=
  if t.year < 1950 then replaceYear t (t.year + 2000)
  else if t.year < 2000 then replaceYear t (t.year + 1900)
  else some t

/-- The six formats in the order `_parse` tries them; for the two-digit
formats the result includes the year adjustment, whose `ValueError` is
also caught by the surrounding `except` and falls through to the next
format. -/
def parseFmt : Nat → List Char → Option DT
  | 0, s => strpYmdH s
  | 1, s => strpYmd s
  | 2, s => strpYmdHM s
  | 3, s => (strpymdH s).bind adjust2
  | 4, s => (strpymd s).bind adjust2
  | 5, s => (strpymdHM s).bind adjust2
  | _ + 6, _ => none

/-- The body of `_parse` applied to the prefix-stripped suffix: the two
`for fmt in (...)` loops, returning the first successful format. -/
def parseSuffix (s : List Char) : Option DT :=
  match strpYmdH s with
  | some t => some t
  | none =>
  match strpYmd s with
  | some t => some t
  | none =>
  match strpYmdHM s with
  | some t => some t
  | none =>
  match (strpymdH s).bind adjust2 with
  | some t => some t
  | none =>
  match (strpymd s).bind adjust2 with
  | some t => some t
  | none => (strpymdHM s).bind adjust2

/-- `_parse(name)`: strip `len(prefix)` characters, then try the six
formats. -/
def parseName (pre name : String) : Option DT :=
  parseSuffix (name.data.drop pre.length)

/-- One entry of the scanned directory: its name and whether it is a
regular file (`Path.is_file`). -/
structure Entry where
  name : String
  isFile : Bool
deriving DecidableEq

/-- Is the first character list a prefix of the second? -/
def listIsPre : List Char → List Char → Bool
  | [], _ => true
  | _ :: _, [] => false
  | a :: as, b :: bs => a == b && listIsPre as bs

/-- `Path.glob(prefix + "*")` membership for a literal prefix: plain
prefix matching (`pathlib`'s `*` also matches names that start with a
dot, so the empty prefix needs no special case). -/
def matchesPre (pre n : String) : Bool :=
  listIsPre pre.data n.data

/-- Code-point-wise `≤` on strings, the order `sorted` uses for paths in
one directory. -/
def lexLe : List Char → List Char → Bool
  | [], _ => true
  | _ :: _, [] => false
  | a :: as, b :: bs =>
    if a.toNat < b.toNat then true
    else if b.toNat < a.toNat then false
    else lexLe as bs

/-- Insert into a sorted list, before the first element it is `le` to
(this is a stable insertion). -/
def insertLe {α : Type} (le : α → α → Bool) (x : α) : List α → List α
  | [] => [x]
  | y :: ys => if le x y then x :: y :: ys else y :: insertLe le x ys

/-- Stable insertion sort, modelling Python's stable `sorted` / `sort`. -/
def isort {α : Type} (le : α → α → Bool) : List α → List α
  | [] => []
  | x :: xs => insertLe le x (isort le xs)

/-- `products = sorted(product_dir.glob(prefix + "*"))` (meteo.py line 20):
the prefix-matching entries of the scan, sorted by name. -/
def products (listing : List Entry) (pre : String) : List Entry :=
  isort (fun a b => lexLe a.name.data b.name.data)
    (listing.filter fun e => matchesPre pre e.name)

/-- The first loop of `create_available_file` (lines 45–53): skip
non-files, parse each name, and keep the `(ts, name)` pairs whose
timestamp lies in `[start_time, end_time]`. -/
def inWindowRows (listing : List Entry) (startT endT : DT) (pre : String) :
    List (DT × String) :=
  (products listing pre).filterMap fun e =>
    if e.isFile then
      match parseName pre e.name with
      | some ts =>
        if dtKey startT ≤ dtKey ts ∧ dtKey ts ≤ dtKey endT then some (ts, e.name)
        else none
      | none => none
    else none

/-- The `unparseable` list collected by the first loop: names of regular
files that failed every format (non-file entries are skipped before the
parse, so they are never recorded). -/
def unparseableNames (listing : List Entry) (pre : String) : List String :=
  ((products listing pre).filter fun e =>
      e.isFile && (parseName pre e.name).isNone).map (fun e => e.name)

/-- The fallback loop (lines 56–59): every product whose name parses,
regular file or not — this loop has no `is_file` check. -/
def allParsedRows (listing : List Entry) (pre : String) : List (DT × String) :=
  (products listing pre).filterMap fun e =>
    (parseName pre e.name).map fun ts => (ts, e.name)

/-- Comparison key used by `filtered.sort(key=lambda row: row[0])`. -/
def rowLe (a b : DT × String) : Bool := Nat.ble (dtKey a.1) (dtKey b.1)

/-- The `filtered` list as it stands after lines 43–60: the in-window
selection, or — when that is empty — all parsed products sorted by
ascending timestamp (a stable sort). -/
def selectRows (listing : List Entry) (startT endT : DT) (pre : String) :
    List (DT × String) :=
  let w := inWindowRows listing startT endT pre
  if w.isEmpty then isort rowLe (allParsedRows listing pre) else w

/-- Python's `str.join` on a list of strings. -/
def joinWith (sep : String) : List String → String
  | [] => ""
  | [x] => x
  | x :: y :: xs => x ++ sep ++ joinWith sep (y :: xs)

/-- The three fixed header lines (lines 68–72, copied byte-for-byte). -/
def headerLines : List String :=
  ["XXXXXX EMPTY LINES XXXXXXXXX",
   "XXXXXX EMPTY LINES XXXXXXXX",
   "YYYYMMDD HHMMSS   name of the file(up to 80 characters)"]

/-- The format spec `{name:<30}`: left-justify, padding on the right with
spaces to a minimum width of 30; longer values are not truncated. -/
def padName (n : String) : String :=
  if n.length < 30 then n ++ String.mk (List.replicate (30 - n.length) ' ') else n

/-- Two-digit zero-padded decimal (`%m`, `%d`, `%H`, `%M`, `%S` for the
component ranges a `datetime` can hold). -/
def pad2 (n : Nat) : String :=
  String.mk [Nat.digitChar (n / 10 % 10), Nat.digitChar (n % 10)]

/-- Unpadded decimal digits of a year in `datetime`'s range 1–9999, as
glibc's `strftime('%Y')` writes it: `49` is written `"49"`, not `"0049"`
(values above 9999 cannot occur in a `datetime`). -/
def natDec (n : Nat) : List Char :=
  if n < 10 then [Nat.digitChar n]
  else if n < 100 then [Nat.digitChar (n / 10), Nat.digitChar (n % 10)]
  else if n < 1000 then
    [Nat.digitChar (n / 100), Nat.digitChar (n / 10 % 10), Nat.digitChar (n % 10)]
  else
    [Nat.digitChar (n / 1000 % 10), Nat.digitChar (n / 100 % 10),
      Nat.digitChar (n / 10 % 10), Nat.digitChar (n % 10)]

/-- `ts.strftime('%Y%m%d')`. -/
def fmtDate (t : DT) : String := String.mk (natDec t.year) ++ pad2 t.month ++ pad2 t.day

/-- `ts.strftime('%H%M%S')`. -/
def fmtTime (t : DT) : String := pad2 t.hour ++ pad2 t.minute ++ pad2 t.second

/-- One manifest entry line (line 74 of meteo.py). -/
def entryLine (row : DT × String) : String :=
  fmtDate row.1 ++ " " ++ fmtTime row.1 ++ "      " ++ padName row.2
    ++ "      " ++ "ON DISK"

/-- The full text written to `AVAILABLE` (line 77):
`"\n".join([*header, *entries]) + "\n"`. -/
def renderManifest (rows : List (DT × String)) : String :=
  joinWith "\n" (headerLines ++ rows.map entryLine) ++ "\n"

/-- Message of the `MeteoError` raised at line 22. -/
def noFilesMsg (pre dirName : String) : String :=
  "No " ++ pre ++ " files found in " ++ dirName

/-- Message of the `MeteoError` raised at lines 63–66. -/
def unparseMsg (names : List String) : String :=
  "Unable to parse timestamps for AVAILABLE file from: " ++ joinWith ", " names

/-- `create_available_file` as a pure computation: either a `MeteoError`
message or the pair (text written to `AVAILABLE`, returned count). -/
def createAvailableFile (listing : List Entry) (dirName : String)
    (startT endT : DT) (pre : String) : Except String (String × Nat) :=
  let ps := products listing pre
  if ps.isEmpty then Except.error (noFilesMsg pre dirName)
  else
    let rows := selectRows listing startT endT pre
    if rows.isEmpty then Except.error (unparseMsg (unparseableNames listing pre))
    else Except.ok (renderManifest rows, rows.length)

/-- Did the call raise? -/
def isErr {ε α : Type} : Except ε α → Bool
  | Except.error _ => true
  | Except.ok _ => false

instance {ε α : Type} [DecidableEq ε] [DecidableEq α] : DecidableEq (Except ε α) :=
  fun a b =>
  match a, b with
  | Except.error e1, Except.error e2 =>
    if h : e1 = e2 then isTrue (by rw [h]) else isFalse (by intro hh; cases hh; exact h rfl)
  | Except.ok v1, Except.ok v2 =>
    if h : v1 = v2 then isTrue (by rw [h]) else isFalse (by intro hh; cases hh; exact h rfl)
  | Except.error _, Except.ok _ => isFalse (by intro hh; cases hh)
  | Except.ok _, Except.error _ => isFalse (by intro hh; cases hh)

/-- Contents of the scanned directory's files, by name. -/
abbrev Fs := List (String × String)

/-- Content lookup by file name. -/
def lookupFile : Fs → String → Option String
  | [], _ => none
  | (a, b) :: rest, k => if a = k then some b else lookupFile rest k

/-- `write_text`: create the file or fully replace its content. -/
def setFile : Fs → String → String → Fs
  | [], k, v => [(k, v)]
  | (a, b) :: rest, k, v =>
    if a = k then (a, v) :: rest else (a, b) :: setFile rest k v

/-- The effect of one invocation on the directory's file contents: the
single `write_text` on the success path, nothing on either error path
(both `raise` statements precede the write). -/
def runCreate (fs : Fs) (listing : List Entry) (dirName : String)
    (startT endT : DT) (pre : String) : Fs :=
  match createAvailableFile listing dirName startT endT pre with
  | Except.ok (content, _) => setFile fs "AVAILABLE" content
  | Except.error _ => fs

/-! ### Helper lemmas about the sorting and selection combinators -/

theorem mem_insertLe {α : Type} (le : α → α → Bool) (x y : α) (l : List α) :
    y ∈ insertLe le x l ↔ y = x ∨ y ∈ l := by
  induction l with
  | nil => simp [insertLe]
  | cons a as ih =>
    simp only [insertLe]
    split
    · simp [List.mem_cons]
    · simp [List.mem_cons, ih]
      tauto

theorem length_insertLe {α : Type} (le : α → α → Bool) (x : α) (l : List α) :
    (insertLe le x l).length = l.length + 1 := by
  induction l with
  | nil => rfl
  | cons a as ih =>
    simp only [insertLe]
    split
    · simp
    · simp [ih]

theorem length_isort {α : Type} (le : α → α → Bool) (l : List α) :
    (isort le l).length = l.length := by
  induction l with
  | nil => rfl
  | cons a as ih => simp [isort, length_insertLe, ih]

theorem mem_isort {α : Type} (le : α → α → Bool) (y : α) (l : List α) :
    y ∈ isort le l ↔ y ∈ l := by
  induction l with
  | nil => simp [isort]
  | cons a as ih => simp [isort, mem_insertLe, ih]

theorem isort_eq_nil_iff {α : Type} (le : α → α → Bool) (l : List α) :
    isort le l = [] ↔ l = [] := by
  constructor
  · intro h
    have := length_isort le l
    rw [h] at this
    exact List.length_eq_zero.mp this.symm
  · intro h
    rw [h]
    rfl

theorem pairwise_insertLe {α : Type} (le : α → α → Bool)
    (total : ∀ a b, le a b = true ∨ le b a = true)
    (htrans : ∀ a b c, le a b = true → le b c = true → le a c = true)
    (x : α) (l : List α) (h : l.Pairwise (fun a b => le a b = true)) :
    (insertLe le x l).Pairwise (fun a b => le a b = true) := by
  induction l with
  | nil => simp [insertLe]
  | cons a as ih =>
    rcases List.pairwise_cons.mp h with ⟨ha, has⟩
    simp only [insertLe]
    split
    · rename_i hxa
      refine List.pairwise_cons.mpr ⟨?_, h⟩
      intro b hb
      rcases List.mem_cons.mp hb with rfl | hb
      · exact hxa
      · exact htrans x a b hxa (ha b hb)
    · rename_i hxa
      refine List.pairwise_cons.mpr ⟨?_, ih has⟩
      intro b hb
      rcases (mem_insertLe le x b as).mp hb with rfl | hb
      · rcases total a b with hab | hba
        · exact hab
        · exact absurd hba hxa
      · exact ha b hb

theorem pairwise_isort {α : Type} (le : α → α → Bool)
    (total : ∀ a b, le a b = true ∨ le b a = true)
    (htrans : ∀ a b c, le a b = true → le b c = true → le a c = true)
    (l : List α) : (isort le l).Pairwise (fun a b => le a b = true) := by
  induction l with
  | nil => simp [isort]
  | cons a as ih => exact pairwise_insertLe le total htrans a (isort le as) ih

theorem rowLe_total (a b : DT × String) : rowLe a b = true ∨ rowLe b a = true := by
  simp only [rowLe, Nat.ble_eq]
  omega

theorem rowLe_trans (a b c : DT × String) (h1 : rowLe a b = true)
    (h2 : rowLe b c = true) : rowLe a c = true := by
  simp only [rowLe, Nat.ble_eq] at *
  omega

theorem length_filterMap_of_isSome {α β : Type} (f : α → Option β) (l : List α)
    (h : ∀ x ∈ l, (f x).isSome = true) : (l.filterMap f).length = l.length := by
  induction l with
  | nil => rfl
  | cons a as ih =>
    have ha := h a (List.mem_cons_self a as)
    rcases Option.isSome_iff_exists.mp ha with ⟨b, hb⟩
    rw [List.filterMap_cons, hb]
    simp only [List.length_cons]
    rw [ih (fun x hx => h x (List.mem_cons_of_mem a hx))]

/-- Every selected row carries the timestamp that `_parse` produced for
its file name. -/
theorem selectRows_parses (listing : List Entry) (startT endT : DT) (pre : String) :
    ∀ r ∈ selectRows listing startT endT pre, parseName pre r.2 = some r.1 := by
  intro r hr
  simp only [selectRows] at hr
  split at hr
  · rw [mem_isort] at hr
    rcases List.mem_filterMap.mp hr with ⟨e, _, hfe⟩
    rcases Option.map_eq_some'.mp hfe with ⟨ts, hts, heq⟩
    cases heq
    exact hts
  · rcases List.mem_filterMap.mp hr with ⟨e, _, hfe⟩
    split at hfe
    · cases hp : parseName pre e.name with
      | none => simp [hp] at hfe
      | some ts =>
        simp only [hp] at hfe
        split at hfe
        · injection hfe with h
          rw [← h]
          exact hp
        · exact absurd hfe (by simp)
    · exact absurd hfe (by simp)

/-! ### Claim C1 -/

/-- Claim C1, counterexample: with files `EC20680101` (parsed 2068-01-01 by
`%Y%m%d`) and `EC670101` (parsed 2067-01-01 by `%y%m%d`) and the window
`[2067-01-01, 2068-01-01]`, both files are selected by the in-window path,
and the manifest rows appear in scan (name) order `2068, 2067` — not in
ascending timestamp order. -/
theorem C1_counterexample :
    (inWindowRows [⟨"EC20680101", true⟩, ⟨"EC670101", true⟩]
        ⟨2067, 1, 1, 0, 0, 0⟩ ⟨2068, 1, 1, 0, 0, 0⟩ "EC").length = 2
    ∧ (selectRows [⟨"EC20680101", true⟩, ⟨"EC670101", true⟩]
        ⟨2067, 1, 1, 0, 0, 0⟩ ⟨2068, 1, 1, 0, 0, 0⟩ "EC").map (fun r => r.1) =
      [⟨2068, 1, 1, 0, 0, 0⟩, ⟨2067, 1, 1, 0, 0, 0⟩]
    ∧ ¬ (selectRows [⟨"EC20680101", true⟩, ⟨"EC670101", true⟩]
        ⟨2067, 1, 1, 0, 0, 0⟩ ⟨2068, 1, 1, 0, 0, 0⟩ "EC").Pairwise
          (fun a b => dtKey a.1 ≤ dtKey b.1) := by
  exact ⟨by decide, by decide, by decide⟩

/-- Claim C1 (amended): entries are in ascending timestamp order on the
fallback path (when no regular file's timestamp lies in the window, the
manifest rows are sorted by timestamp); on the in-window path the rows
stay in directory-scan (lexicographic name) order, which need not be
ascending by timestamp. -/
theorem C1_fallback_sorted (listing : List Entry) (startT endT : DT) (pre : String)
    (h : inWindowRows listing startT endT pre = []) :
    (selectRows listing startT endT pre).Pairwise (fun a b => dtKey a.1 ≤ dtKey b.1) := by
  simp only [selectRows, h, List.isEmpty_nil, if_true]
  have hp := pairwise_isort rowLe rowLe_total rowLe_trans (allParsedRows listing pre)
  exact hp.imp (fun hab => by simpa [rowLe, Nat.ble_eq] using hab)

/-- Claim C1, witness for the amended theorem: the window `[2030-01-01,
2030-01-02]` excludes both files, and the fallback rows come out sorted. -/
theorem C1_fallback_sorted_witness :
    inWindowRows [⟨"EC2024010100", true⟩, ⟨"EC2024010106", true⟩]
      ⟨2030, 1, 1, 0, 0, 0⟩ ⟨2030, 1, 2, 0, 0, 0⟩ "EC" = []
    ∧ (selectRows [⟨"EC2024010100", true⟩, ⟨"EC2024010106", true⟩]
        ⟨2030, 1, 1, 0, 0, 0⟩ ⟨2030, 1, 2, 0, 0, 0⟩ "EC").Pairwise
          (fun a b => dtKey a.1 ≤ dtKey b.1) :=
  ⟨by decide, C1_fallback_sorted _ _ _ _ (by decide)⟩

/-! ### Claim C2 -/

/-- Claim C2 (code bug): what `_parse` actually does on two-digit-year
suffixes.  `strptime` with `%y` already produces a four-digit year
(00–68 ↦ 2000–2068, 69–99 ↦ 1969–1999); the subsequent
`if ts.year < 1950 ... elif ts.year < 2000: ts.replace(year=ts.year + 1900)`
then maps 1969–1999 to 3869–3899, so `"500101"` parses to 2050-01-01
(not 1950-01-01 as the claim states) and `"690101"` to 3869-01-01
(not 1969-01-01). -/
theorem C2_code_behavior :
    parseName "EC" "EC490101" = some ⟨2049, 1, 1, 0, 0, 0⟩
    ∧ parseName "EC" "EC500101" = some ⟨2050, 1, 1, 0, 0, 0⟩
    ∧ parseName "EC" "EC690101" = some ⟨3869, 1, 1, 0, 0, 0⟩
    ∧ parseName "EC" "EC990101" = some ⟨3899, 1, 1, 0, 0, 0⟩ := by
  decide

/-! ### Claim C8 -/

/-- Claim C8: `_parse` tries the six formats in the order `%Y%m%d%H`,
`%Y%m%d`, `%Y%m%d%H%M`, `%y%m%d%H`, `%y%m%d`, `%y%m%d%H%M`, and the first
format that succeeds (including the two-digit-year adjustment, whose
failure also falls through) determines the returned timestamp. -/
theorem C8_first_format_wins (s : List Char) (i : Nat) (t : DT)
    (hi : parseFmt i s = some t) (hj : ∀ j, j < i → parseFmt j s = none) :
    parseSuffix s = some t := by
  have hlt : i < 6 := by
    by_contra hge
    push_neg at hge
    obtain ⟨k, rfl⟩ : ∃ k, i = k + 6 := ⟨i - 6, by omega⟩
    simp [parseFmt] at hi
  interval_cases i
  · simp only [parseFmt] at hi
    simp [parseSuffix, hi]
  · have h0 := hj 0 (by omega)
    simp only [parseFmt] at hi h0
    simp [parseSuffix, h0, hi]
  · have h0 := hj 0 (by omega)
    have h1 := hj 1 (by omega)
    simp only [parseFmt] at hi h0 h1
    simp [parseSuffix, h0, h1, hi]
  · have h0 := hj 0 (by omega)
    have h1 := hj 1 (by omega)
    have h2 := hj 2 (by omega)
    simp only [parseFmt] at hi h0 h1 h2
    simp [parseSuffix, h0, h1, h2, hi]
  · have h0 := hj 0 (by omega)
    have h1 := hj 1 (by omega)
    have h2 := hj 2 (by omega)
    have h3 := hj 3 (by omega)
    simp only [parseFmt] at hi h0 h1 h2 h3
    simp [parseSuffix, h0, h1, h2, h3, hi]
  · have h0 := hj 0 (by omega)
    have h1 := hj 1 (by omega)
    have h2 := hj 2 (by omega)
    have h3 := hj 3 (by omega)
    have h4 := hj 4 (by omega)
    simp only [parseFmt] at hi h0 h1 h2 h3 h4
    simp [parseSuffix, h0, h1, h2, h3, h4, hi]

/-- Claim C8, witness: the eight-digit suffix `20240101` is a valid
`%Y%m%d` date; format 0 (`%Y%m%d%H`) fails on it and format 1 (`%Y%m%d`)
wins, so it is never interpreted by the later two-digit formats. -/
theorem C8_first_format_wins_witness :
    parseFmt 1 "20240101".data = some ⟨2024, 1, 1, 0, 0, 0⟩
    ∧ (∀ j, j < 1 → parseFmt j "20240101".data = none)
    ∧ parseSuffix "20240101".data = some ⟨2024, 1, 1, 0, 0, 0⟩ :=
  ⟨by decide, by decide,
    C8_first_format_wins "20240101".data 1 _ (by decide) (by decide)⟩

/-! ### Emptiness of the selection -/

theorem inWindow_nil_of_allParsed_nil (listing : List Entry) (startT endT : DT)
    (pre : String) (h : allParsedRows listing pre = []) :
    inWindowRows listing startT endT pre = [] := by
  simp only [allParsedRows, List.filterMap_eq_nil_iff] at h
  simp only [inWindowRows, List.filterMap_eq_nil_iff]
  intro e he
  have hp := Option.map_eq_none'.mp (h e he)
  simp [hp]

theorem selectRows_nil_iff (listing : List Entry) (startT endT : DT) (pre : String) :
    selectRows listing startT endT pre = [] ↔ allParsedRows listing pre = [] := by
  simp only [selectRows]
  by_cases hw : (inWindowRows listing startT endT pre).isEmpty = true
  · simp [hw, isort_eq_nil_iff]
  · simp only [hw, if_neg, Bool.false_eq_true, not_false_eq_true, if_false]
    constructor
    · intro h
      exact absurd (by simp [h] : (inWindowRows listing startT endT pre).isEmpty = true) hw
    · intro h
      exact absurd (by simp [inWindow_nil_of_allParsed_nil listing startT endT pre h] :
        (inWindowRows listing startT endT pre).isEmpty = true) hw

theorem allParsed_nil_iff (listing : List Entry) (pre : String) :
    allParsedRows listing pre = [] ↔
      ∀ x ∈ products listing pre, parseName pre x.name = none := by
  simp only [allParsedRows, List.filterMap_eq_nil_iff]
  constructor
  · intro h x hx
    exact Option.map_eq_none'.mp (h x hx)
  · intro h x hx
    exact Option.map_eq_none'.mpr (h x hx)

/-! ### Claim C4 -/

/-- Claim C4: `create_available_file` raises a `MeteoError` exactly when
the directory has no prefix-matching entry or no prefix-matching entry's
name parses under any of the six formats; a window that excludes every
parsed file is handled by the fallback, and a partial parse failure is
not an error. -/
theorem C4_error_iff (listing : List Entry) (dn : String) (startT endT : DT)
    (pre : String) :
    isErr (createAvailableFile listing dn startT endT pre) = true ↔
      (products listing pre = [] ∨
        ∀ x ∈ products listing pre, parseName pre x.name = none) := by
  by_cases hp : (products listing pre).isEmpty = true
  · have hp' := List.isEmpty_iff.mp hp
    simp [createAvailableFile, hp, isErr, hp']
  · have hp' : products listing pre ≠ [] := by
      intro h
      exact hp (by simp [h])
    by_cases hr : (selectRows listing startT endT pre).isEmpty = true
    · have hr' := List.isEmpty_iff.mp hr
      have hall := (allParsed_nil_iff listing pre).mp
        ((selectRows_nil_iff listing startT endT pre).mp hr')
      simp only [createAvailableFile, hp, hr, isErr, if_true, if_false,
        Bool.false_eq_true]
      constructor
      · intro _
        exact Or.inr hall
      · intro _
        trivial
    · have hnall : ¬ ∀ x ∈ products listing pre, parseName pre x.name = none := by
        intro hall
        exact hr (by
          simp [(selectRows_nil_iff listing startT endT pre).mpr
            ((allParsed_nil_iff listing pre).mpr hall)])
      simp [createAvailableFile, hp, hr, isErr, hp', hnall]

/-! ### Claim C3 -/

/-- Claim C3, counterexample: the directory has the regular file
`EC20240101` (parses, outside the window) and a subdirectory
`EC20240102` whose name also parses.  The fallback path omits the
`is_file` check of the first loop, so the manifest is built from both
parsed entries, not only from the parsed files as the claim states. -/
theorem C3_counterexample :
    parseName "EC" "EC20240101" = some ⟨2024, 1, 1, 0, 0, 0⟩
    ∧ inWindowRows [⟨"EC20240101", true⟩, ⟨"EC20240102", false⟩]
        ⟨2030, 1, 1, 0, 0, 0⟩ ⟨2030, 1, 2, 0, 0, 0⟩ "EC" = []
    ∧ (selectRows [⟨"EC20240101", true⟩, ⟨"EC20240102", false⟩]
        ⟨2030, 1, 1, 0, 0, 0⟩ ⟨2030, 1, 2, 0, 0, 0⟩ "EC").map (fun r => r.2) =
      ["EC20240101", "EC20240102"]
    ∧ (selectRows [⟨"EC20240101", true⟩, ⟨"EC20240102", false⟩]
        ⟨2030, 1, 1, 0, 0, 0⟩ ⟨2030, 1, 2, 0, 0, 0⟩ "EC").map (fun r => r.2) ≠
      ["EC20240101"] := by
  exact ⟨by decide, by decide, by decide, by decide⟩

/-- Claim C3 (amended): when some prefix-matching regular file parses but
no parsed file timestamp lies in `[start_time, end_time]`, the manifest is
built from every successfully parsed prefix-matching entry — regular file
or not, since the fallback loop does not re-check `is_file` — sorted by
ascending timestamp, and the operation does not fail. -/
theorem C3_fallback_all_parsed (listing : List Entry) (dn : String)
    (startT endT : DT) (pre : String)
    (hfile : ∃ x ∈ products listing pre,
      x.isFile = true ∧ (parseName pre x.name).isSome = true)
    (hwin : inWindowRows listing startT endT pre = []) :
    (∀ x ∈ products listing pre, ∀ ts, parseName pre x.name = some ts →
        (ts, x.name) ∈ selectRows listing startT endT pre)
    ∧ (selectRows listing startT endT pre).Pairwise
        (fun a b => dtKey a.1 ≤ dtKey b.1)
    ∧ isErr (createAvailableFile listing dn startT endT pre) = false := by
  have hsel : selectRows listing startT endT pre =
      isort rowLe (allParsedRows listing pre) := by
    simp [selectRows, hwin]
  refine ⟨?_, ?_, ?_⟩
  · intro x hx ts hts
    rw [hsel, mem_isort]
    exact List.mem_filterMap.mpr ⟨x, hx, by simp [hts]⟩
  · rw [hsel]
    exact (pairwise_isort rowLe rowLe_total rowLe_trans _).imp
      (fun hab => by simpa [rowLe, Nat.ble_eq] using hab)
  · rcases hfile with ⟨x, hx, _, hs⟩
    rcases Option.isSome_iff_exists.mp hs with ⟨ts, hts⟩
    have hmem : (ts, x.name) ∈ selectRows listing startT endT pre := by
      rw [hsel, mem_isort]
      exact List.mem_filterMap.mpr ⟨x, hx, by simp [hts]⟩
    have hrne : selectRows listing startT endT pre ≠ [] := by
      intro h
      rw [h] at hmem
      exact absurd hmem (List.not_mem_nil _)
    have hpne : products listing pre ≠ [] := by
      intro h
      rw [h] at hx
      exact absurd hx (List.not_mem_nil _)
    simp [createAvailableFile, isErr, hpne, hrne]

/-- Claim C3, witness for the amended theorem: the spec's own fallback
example — both files outside the `[2030-01-01, 2030-01-02]` window — ends
in a successful invocation. -/
theorem C3_fallback_all_parsed_witness :
    inWindowRows [⟨"EC2024010100", true⟩, ⟨"EC2024010106", true⟩]
      ⟨2030, 1, 1, 0, 0, 0⟩ ⟨2030, 1, 2, 0, 0, 0⟩ "EC" = []
    ∧ isErr (createAvailableFile [⟨"EC2024010100", true⟩, ⟨"EC2024010106", true⟩]
        "productdir" ⟨2030, 1, 1, 0, 0, 0⟩ ⟨2030, 1, 2, 0, 0, 0⟩ "EC") = false :=
  ⟨by decide,
    (C3_fallback_all_parsed [⟨"EC2024010100", true⟩, ⟨"EC2024010106", true⟩]
      "productdir" ⟨2030, 1, 1, 0, 0, 0⟩ ⟨2030, 1, 2, 0, 0, 0⟩ "EC"
      ⟨⟨"EC2024010100", true⟩, by decide, by decide, by decide⟩ (by decide)).2.2⟩

/-! ### Claim C6 -/

/-- Claim C6, counterexample: two parseable regular files
(`EC2024010100` at 00:00 and `EC2024010106` at 06:00) with the window
`[2024-01-01T00:00, 2024-01-01T03:00]`: only one file is selected, so the
manifest does not contain as many entries as there are input files. -/
theorem C6_counterexample :
    (∀ x ∈ products [⟨"EC2024010100", true⟩, ⟨"EC2024010106", true⟩] "EC",
        x.isFile = true ∧ (parseName "EC" x.name).isSome = true)
    ∧ (products [⟨"EC2024010100", true⟩, ⟨"EC2024010106", true⟩] "EC").length = 2
    ∧ (selectRows [⟨"EC2024010100", true⟩, ⟨"EC2024010106", true⟩]
        ⟨2024, 1, 1, 0, 0, 0⟩ ⟨2024, 1, 1, 3, 0, 0⟩ "EC").length = 1 := by
  exact ⟨by decide, by decide, by decide⟩

/-- Claim C6 (amended): for a non-empty directory in which every
prefix-matching entry is a regular file with a parseable name, the
manifest carries each row's parsed timestamp, its number of entries is
the number of files whose timestamp lies in the window — or the number of
all files when none lies in the window — and the operation succeeds. -/
theorem C6_entry_count (listing : List Entry) (dn : String) (startT endT : DT)
    (pre : String)
    (hne : products listing pre ≠ [])
    (hall : ∀ x ∈ products listing pre,
      x.isFile = true ∧ (parseName pre x.name).isSome = true) :
    (∀ r ∈ selectRows listing startT endT pre, parseName pre r.2 = some r.1)
    ∧ (selectRows listing startT endT pre).length =
        (if (inWindowRows listing startT endT pre).isEmpty then
          (products listing pre).length
         else (inWindowRows listing startT endT pre).length)
    ∧ isErr (createAvailableFile listing dn startT endT pre) = false := by
  have hrowlen : (selectRows listing startT endT pre).length =
      (if (inWindowRows listing startT endT pre).isEmpty then
        (products listing pre).length
       else (inWindowRows listing startT endT pre).length) := by
    simp only [selectRows]
    by_cases hw : (inWindowRows listing startT endT pre).isEmpty = true
    · rw [if_pos hw, if_pos hw, length_isort]
      simp only [allParsedRows]
      apply length_filterMap_of_isSome
      intro x hx
      simpa using (hall x hx).2
    · rw [if_neg hw, if_neg hw]
  have hrne : selectRows listing startT endT pre ≠ [] := by
    intro h
    have h0 := congrArg List.length h
    rw [hrowlen] at h0
    simp only [List.length_nil] at h0
    split at h0
    · exact hne (List.length_eq_zero.mp h0)
    · rename_i hw
      exact hw (List.isEmpty_iff.mpr (List.length_eq_zero.mp h0))
  exact ⟨selectRows_parses listing startT endT pre, hrowlen,
    by simp [createAvailableFile, isErr, hne, hrne]⟩

/-- Claim C6, witness for the amended theorem: with the window covering
only the 00:00 file, the successful manifest has exactly one entry. -/
theorem C6_entry_count_witness :
    products [⟨"EC2024010100", true⟩, ⟨"EC2024010106", true⟩] "EC" ≠ []
    ∧ (selectRows [⟨"EC2024010100", true⟩, ⟨"EC2024010106", true⟩]
        ⟨2024, 1, 1, 0, 0, 0⟩ ⟨2024, 1, 1, 3, 0, 0⟩ "EC").length = 1
    ∧ isErr (createAvailableFile [⟨"EC2024010100", true⟩, ⟨"EC2024010106", true⟩]
        "productdir" ⟨2024, 1, 1, 0, 0, 0⟩ ⟨2024, 1, 1, 3, 0, 0⟩ "EC") = false := by
  have h := C6_entry_count [⟨"EC2024010100", true⟩, ⟨"EC2024010106", true⟩]
    "productdir" ⟨2024, 1, 1, 0, 0, 0⟩ ⟨2024, 1, 1, 3, 0, 0⟩ "EC"
    (by decide) (by decide)
  refine ⟨by decide, ?_, h.2.2⟩
  rw [h.2.1]
  decide

/-! ### Claim C7 -/

/-- The all-unparseable error message never coincides with the
no-matching-files message: one starts with `U`, the other with `N`. -/
theorem unparse_ne_noFiles (ns : List String) (p d : String) :
    unparseMsg ns ≠ noFilesMsg p d := by
  intro h
  have h1 : (unparseMsg ns).data.head? = some 'U' := by
    rw [unparseMsg, String.data_append]
    rfl
  have h2 : (noFilesMsg p d).data.head? = some 'N' := by
    rw [noFilesMsg, String.data_append, String.data_append, String.data_append]
    rfl
  rw [h, h2] at h1
  exact absurd h1 (by decide)

/-- Claim C7, counterexample: the subdirectory `ECalpha` and the regular
file `ECbeta` are both prefix-matching and both unparseable, yet the
error message lists only `ECbeta` — the first loop skips non-file entries
before recording unparseable names. -/
theorem C7_counterexample :
    parseName "EC" "ECalpha" = none
    ∧ parseName "EC" "ECbeta" = none
    ∧ (products [⟨"ECalpha", false⟩, ⟨"ECbeta", true⟩] "EC").map (fun x => x.name) =
      ["ECalpha", "ECbeta"]
    ∧ createAvailableFile [⟨"ECalpha", false⟩, ⟨"ECbeta", true⟩] "productdir"
        ⟨2024, 1, 1, 0, 0, 0⟩ ⟨2024, 1, 2, 0, 0, 0⟩ "EC" =
      Except.error (unparseMsg ["ECbeta"])
    ∧ unparseMsg ["ECbeta"] ≠ unparseMsg ["ECalpha", "ECbeta"] := by
  exact ⟨by decide, by decide, by decide, by decide, by decide⟩

/-- Claim C7 (amended): when every prefix-matching entry fails all six
parses, the error message enumerates exactly the unparseable *regular
file* names, in scan order (non-file entries are omitted), and this
message is distinct from every no-matching-files message. -/
theorem C7_unparseable_error (listing : List Entry) (dn : String)
    (startT endT : DT) (pre : String)
    (hne : products listing pre ≠ [])
    (hall : ∀ x ∈ products listing pre, parseName pre x.name = none) :
    createAvailableFile listing dn startT endT pre =
      Except.error (unparseMsg
        (((products listing pre).filter fun e => e.isFile).map fun e => e.name))
    ∧ ∀ p2 d2,
        unparseMsg
            (((products listing pre).filter fun e => e.isFile).map fun e => e.name)
          ≠ noFilesMsg p2 d2 := by
  have hap : allParsedRows listing pre = [] := (allParsed_nil_iff listing pre).mpr hall
  have hrows : selectRows listing startT endT pre = [] :=
    (selectRows_nil_iff listing startT endT pre).mpr hap
  have hup : unparseableNames listing pre =
      ((products listing pre).filter fun e => e.isFile).map fun e => e.name := by
    simp only [unparseableNames]
    congr 1
    apply List.filter_congr
    intro x hx
    simp [hall x hx]
  constructor
  · simp [createAvailableFile, hrows, hne, hup, isErr]
  · intro p2 d2
    exact unparse_ne_noFiles _ p2 d2

/-- Claim C7, witness for the amended theorem: the spec's example
directory with only `EC_README` and `EC.txt` fails with the message
enumerating exactly those two (regular-file) names, in scan order. -/
theorem C7_unparseable_error_witness :
    products [⟨"EC_README", true⟩, ⟨"EC.txt", true⟩] "EC" ≠ []
    ∧ createAvailableFile [⟨"EC_README", true⟩, ⟨"EC.txt", true⟩] "productdir"
        ⟨2024, 1, 1, 0, 0, 0⟩ ⟨2024, 1, 2, 0, 0, 0⟩ "EC" =
      Except.error (unparseMsg ["EC.txt", "EC_README"]) := by
  have h := C7_unparseable_error [⟨"EC_README", true⟩, ⟨"EC.txt", true⟩]
    "productdir" ⟨2024, 1, 1, 0, 0, 0⟩ ⟨2024, 1, 2, 0, 0, 0⟩ "EC"
    (by decide) (by decide)
  refine ⟨by decide, ?_⟩
  have h1 := h.1
  rw [show ((products [⟨"EC_README", true⟩, ⟨"EC.txt", true⟩] "EC").filter
      fun e => e.isFile).map (fun e => e.name) = ["EC.txt", "EC_README"] from by decide] at h1
  exact h1

/-! ### Claim C5 -/

/-- Claim C5, counterexample: with the (parseable) 33-character name
`METEODATA_ARCHIVE_GRIB_EC20240101` — prefix
`METEODATA_ARCHIVE_GRIB_EC` — the formatted file-name field is 33
characters wide, not 30: `{name:<30}` pads short names on the right but
never truncates long ones.  Moreover the date field is not always 8
digits: `EC00490101` parses to year 49 (`%Y` accepts `0049`), and
`strftime('%Y')` writes that year unpadded as `49`, giving a 6-digit
date and a 62-character entry line. -/
theorem C5_counterexample :
    parseName "METEODATA_ARCHIVE_GRIB_EC" "METEODATA_ARCHIVE_GRIB_EC20240101" =
      some ⟨2024, 1, 1, 0, 0, 0⟩
    ∧ (padName "METEODATA_ARCHIVE_GRIB_EC20240101").length = 33
    ∧ (padName "METEODATA_ARCHIVE_GRIB_EC20240101").length ≠ 30
    ∧ (entryLine (⟨2024, 1, 1, 0, 0, 0⟩, "METEODATA_ARCHIVE_GRIB_EC20240101")).length
        = 67
    ∧ parseName "EC" "EC00490101" = some ⟨49, 1, 1, 0, 0, 0⟩
    ∧ (fmtDate ⟨49, 1, 1, 0, 0, 0⟩).length = 6
    ∧ (entryLine (⟨49, 1, 1, 0, 0, 0⟩, "EC00490101")).length = 62 := by
  exact ⟨by decide, by decide, by decide, by decide, by decide, by decide, by decide⟩

/-- Claim C5 (amended): each entry line is the date as
`strftime('%Y%m%d')` writes it — the year unpadded (four digits for
years ≥ 1000, fewer for the smaller years the parser can also produce)
followed by two-digit month and day — a space, the 6-digit time, six
spaces, the file name left-justified and space-padded on the right to a
minimum width of 30 characters — names longer than 30 characters are
written in full, not truncated — six spaces, and `ON DISK`. -/
theorem C5_field_layout (ts : DT) (name : String) :
    entryLine (ts, name) =
      fmtDate ts ++ " " ++ fmtTime ts ++ "      " ++ padName name
        ++ "      " ++ "ON DISK"
    ∧ (padName name).length = max name.length 30
    ∧ (padName name).data.take name.length = name.data
    ∧ (padName name).data.drop name.length = List.replicate (30 - name.length) ' '
    ∧ (fmtDate ts).length = (natDec ts.year).length + 4
    ∧ (entryLine (ts, name)).length =
        30 + (natDec ts.year).length + max name.length 30
    ∧ (1000 ≤ ts.year → (natDec ts.year).length = 4) := by
  have hd : (fmtDate ts).length = (natDec ts.year).length + 4 := by
    rw [fmtDate, String.length_append, String.length_append,
      show (String.mk (natDec ts.year)).length = (natDec ts.year).length from rfl,
      show (pad2 ts.month).length = 2 from rfl,
      show (pad2 ts.day).length = 2 from rfl]
  have ht : (fmtTime ts).length = 6 := by
    rw [fmtTime, String.length_append, String.length_append]
    rfl
  have hlen : (padName name).length = max name.length 30 := by
    by_cases h : name.length < 30
    · rw [padName, if_pos h, String.length_append,
        Nat.max_eq_right (Nat.le_of_lt h)]
      have hr : (String.mk (List.replicate (30 - name.length) ' ')).length =
          30 - name.length := by
        rw [show (String.mk (List.replicate (30 - name.length) ' ')).length =
          (List.replicate (30 - name.length) ' ').length from rfl, List.length_replicate]
      rw [hr]
      omega
    · rw [padName, if_neg h, Nat.max_eq_left (by omega)]
  have htake : (padName name).data.take name.length = name.data := by
    by_cases h : name.length < 30
    · rw [padName, if_pos h, String.data_append,
        show name.length = name.data.length from rfl, List.take_left]
    · rw [padName, if_neg h, show name.length = name.data.length from rfl,
        List.take_length]
  have hdrop : (padName name).data.drop name.length =
      List.replicate (30 - name.length) ' ' := by
    by_cases h : name.length < 30
    · rw [padName, if_pos h, String.data_append,
        show name.length = name.data.length from rfl, List.drop_left]
    · have h2 : ¬ name.data.length < 30 := h
      rw [padName, if_neg h, show name.length = name.data.length from rfl,
        List.drop_length, show 30 - name.data.length = 0 from by omega,
        List.replicate_zero]
  have hy4 : 1000 ≤ ts.year → (natDec ts.year).length = 4 := by
    intro h1
    rw [natDec, if_neg (by omega), if_neg (by omega), if_neg (by omega)]
    rfl
  refine ⟨rfl, hlen, htake, hdrop, hd, ?_, hy4⟩
  have hline : entryLine (ts, name) =
      fmtDate ts ++ " " ++ fmtTime ts ++ "      " ++ padName name
        ++ "      " ++ "ON DISK" := rfl
  rw [hline, String.length_append, String.length_append, String.length_append,
    String.length_append, String.length_append, String.length_append,
    hd, ht, hlen]
  have h1 : (" " : String).length = 1 := rfl
  have h6 : ("      " : String).length = 6 := rfl
  have h7 : ("ON DISK" : String).length = 7 := rfl
  rw [h1, h6, h7]
  omega

/-- Claim C5, witness for the amended theorem: for the year-2024 row the
date field is 8 characters and the whole line 64 characters, the name
field being padded to exactly 30. -/
theorem C5_field_layout_witness :
    (padName "EC2024010100").length = 30
    ∧ (natDec (2024 : Nat)).length = 4
    ∧ (entryLine (⟨2024, 1, 1, 0, 0, 0⟩, "EC2024010100")).length = 64 := by
  have h := C5_field_layout ⟨2024, 1, 1, 0, 0, 0⟩ "EC2024010100"
  refine ⟨?_, h.2.2.2.2.2.2 (by decide), ?_⟩
  · rw [h.2.1]
    decide
  · rw [h.2.2.2.2.2.1]
    decide

/-! ### Claim C9 -/

theorem lookup_setFile_self (fs : Fs) (k v : String) :
    lookupFile (setFile fs k v) k = some v := by
  induction fs with
  | nil => simp [setFile, lookupFile]
  | cons p rest ih =>
    rcases p with ⟨a, b⟩
    by_cases hak : a = k
    · simp [setFile, lookupFile, hak]
    · simp [setFile, lookupFile, hak, ih]

theorem lookup_setFile_other (fs : Fs) (k v k' : String) (hk : k' ≠ k) :
    lookupFile (setFile fs k v) k' = lookupFile fs k' := by
  induction fs with
  | nil => simp [setFile, lookupFile, Ne.symm hk]
  | cons p rest ih =>
    rcases p with ⟨a, b⟩
    by_cases hak : a = k
    · subst hak
      simp [setFile, lookupFile, Ne.symm hk]
    · simp [setFile, lookupFile, hak, ih]

/-- Claim C9: a successful invocation updates exactly the file
`AVAILABLE` in the scanned directory, fully overwriting it with the
rendered manifest; every other file keeps its previous content, and the
returned count equals the number of entry rows written. -/
theorem C9_write_effect (fs : Fs) (listing : List Entry) (dn : String)
    (startT endT : DT) (pre : String) (content : String) (n : Nat)
    (h : createAvailableFile listing dn startT endT pre = Except.ok (content, n)) :
    runCreate fs listing dn startT endT pre = setFile fs "AVAILABLE" content
    ∧ lookupFile (runCreate fs listing dn startT endT pre) "AVAILABLE" = some content
    ∧ (∀ k, k ≠ "AVAILABLE" →
        lookupFile (runCreate fs listing dn startT endT pre) k = lookupFile fs k)
    ∧ content = renderManifest (selectRows listing startT endT pre)
    ∧ n = (selectRows listing startT endT pre).length := by
  have hrun : runCreate fs listing dn startT endT pre =
      setFile fs "AVAILABLE" content := by
    simp [runCreate, h]
  have hcn : content = renderManifest (selectRows listing startT endT pre)
      ∧ n = (selectRows listing startT endT pre).length := by
    simp only [createAvailableFile] at h
    split at h
    · exact absurd h (by simp)
    · split at h
      · exact absurd h (by simp)
      · rw [Except.ok.injEq, Prod.mk.injEq] at h
        exact ⟨h.1.symm, h.2.symm⟩
  refine ⟨hrun, ?_, ?_, hcn.1, hcn.2⟩
  · rw [hrun]
    exact lookup_setFile_self fs "AVAILABLE" content
  · intro k hkk
    rw [hrun]
    exact lookup_setFile_other fs "AVAILABLE" content k hkk

/-- Claim C9, witness: a one-file directory; `AVAILABLE` is overwritten
with the four-line manifest and the unrelated file `notes` keeps its
content. -/
theorem C9_write_effect_witness :
    createAvailableFile [⟨"EC2024010100", true⟩] "productdir"
      ⟨2024, 1, 1, 0, 0, 0⟩ ⟨2024, 1, 2, 0, 0, 0⟩ "EC" =
      Except.ok
        ("XXXXXX EMPTY LINES XXXXXXXXX\nXXXXXX EMPTY LINES XXXXXXXX\nYYYYMMDD HHMMSS   name of the file(up to 80 characters)\n20240101 000000      EC2024010100                        ON DISK\n",
          1)
    ∧ lookupFile (runCreate [("AVAILABLE", "old"), ("notes", "keep")]
        [⟨"EC2024010100", true⟩] "productdir"
        ⟨2024, 1, 1, 0, 0, 0⟩ ⟨2024, 1, 2, 0, 0, 0⟩ "EC") "AVAILABLE" =
      some "XXXXXX EMPTY LINES XXXXXXXXX\nXXXXXX EMPTY LINES XXXXXXXX\nYYYYMMDD HHMMSS   name of the file(up to 80 characters)\n20240101 000000      EC2024010100                        ON DISK\n"
    ∧ lookupFile (runCreate [("AVAILABLE", "old"), ("notes", "keep")]
        [⟨"EC2024010100", true⟩] "productdir"
        ⟨2024, 1, 1, 0, 0, 0⟩ ⟨2024, 1, 2, 0, 0, 0⟩ "EC") "notes" = some "keep" := by
  have h := C9_write_effect [("AVAILABLE", "old"), ("notes", "keep")]
    [⟨"EC2024010100", true⟩] "productdir"
    ⟨2024, 1, 1, 0, 0, 0⟩ ⟨2024, 1, 2, 0, 0, 0⟩ "EC"
    "XXXXXX EMPTY LINES XXXXXXXXX\nXXXXXX EMPTY LINES XXXXXXXX\nYYYYMMDD HHMMSS   name of the file(up to 80 characters)\n20240101 000000      EC2024010100                        ON DISK\n"
    1 (by decide)
  exact ⟨by decide, h.2.1, h.2.2.1 "notes" (by decide)⟩

/-! ### Claim C10 -/

/-- Claim C10: when `create_available_file` raises (no matching entry, or
nothing parseable), both `raise` statements precede the single
`write_text`, so no file is written: the directory's contents — the
previous `AVAILABLE` included — are untouched. -/
theorem C10_error_no_write (fs : Fs) (listing : List Entry) (dn : String)
    (startT endT : DT) (pre : String)
    (h : isErr (createAvailableFile listing dn startT endT pre) = true) :
    runCreate fs listing dn startT endT pre = fs := by
  rcases he : createAvailableFile listing dn startT endT pre with msg | v
  · simp [runCreate, he]
  · rw [he] at h
    simp [isErr] at h

/-- Claim C10, witness: an empty directory raises, and the filesystem —
including the stale `AVAILABLE` — is unchanged. -/
theorem C10_error_no_write_witness :
    isErr (createAvailableFile [] "productdir"
      ⟨2024, 1, 1, 0, 0, 0⟩ ⟨2024, 1, 2, 0, 0, 0⟩ "EC") = true
    ∧ runCreate [("AVAILABLE", "old"), ("notes", "keep")] [] "productdir"
        ⟨2024, 1, 1, 0, 0, 0⟩ ⟨2024, 1, 2, 0, 0, 0⟩ "EC" =
      [("AVAILABLE", "old"), ("notes", "keep")] :=
  ⟨by decide,
    C10_error_no_write [("AVAILABLE", "old"), ("notes", "keep")] [] "productdir"
      ⟨2024, 1, 1, 0, 0, 0⟩ ⟨2024, 1, 2, 0, 0, 0⟩ "EC" (by decide)⟩

end FlexMeteo
